import Mathlib

/-!
Shallow embedding of the linkedin-cli repository (TypeScript) for
specification verification.  Pure logic is translated function-by-function
from src/lib/types.ts, src/lib/oauth.ts and src/lib/client.ts; stateful
code (the credential filesystem, the OAuth callback HTTP server, the
sequenced API calls of the publishing pipelines) is embedded as explicit
state passing over small state types, with platform effects (the random
source, the wall clock, upstream HTTP responses) supplied as parameters.
Timestamps are modelled in epoch milliseconds: the source stores ISO-8601
strings and converts them with `new Date(s).getTime()`, so the embedded
credential record carries the parsed millisecond value directly.
-/

namespace LinkedInCli

/-- Credential record (`OAuthTokens` in src/lib/types.ts).  `created_at`
is the epoch-millisecond timestamp corresponding to the stored ISO-8601
string; the optional refresh fields are `Option`. -/
structure OAuthTokens where
  access_token : String
  expires_in : Int
  refresh_token : Option String
  refresh_token_expires_in : Option Int
  scope : String
  token_type : String
  created_at : Int
deriving DecidableEq, Repr

/-- Function `isTokenExpired` from src/lib/oauth.ts: expired when
`now >= createdAt + expires_in * 1000 - 5 * 60 * 1000` (all in
milliseconds; `now` is the `Date.now()` value at the call). -/
def isTokenExpired (tokens : OAuthTokens) (now : Int) : Bool :=
  let createdAt := tokens.created_at
  let expiresAt := createdAt + tokens.expires_in * 1000
  decide (now ≥ expiresAt - 5 * 60 * 1000)

/-- Function `isTokenExpiringSoon` from src/lib/oauth.ts: true when the absolute
expiry instant is at most seven days after `now`. -/
def isTokenExpiringSoon (tokens : OAuthTokens) (now : Int) : Bool :=
  let createdAt := tokens.created_at
  let expiresAt := createdAt + tokens.expires_in * 1000
  decide (expiresAt ≤ now + 7 * 24 * 60 * 60 * 1000)

/-- A sample credential record with `expires_in = 3600` created at epoch
millisecond 0, used to evaluate boundary cases. -/
def hourToken : OAuthTokens :=
  { access_token := "tok"
    expires_in := 3600
    refresh_token := none
    refresh_token_expires_in := none
    scope := "openid profile"
    token_type := "Bearer"
    created_at := 0 }

/-- C1 counterexample: the claim asserts that with `expiresIn = 3600` a
token created 3594 seconds ago is not expired, but `isTokenExpired`
returns true there (age 3594 s is at or past the 3300 s boundary
`expiresIn - 300`). -/
theorem c1_boundary_counterexample :
    isTokenExpired hourToken 3594000 = true := by decide

/-- C1 (amended): `isTokenExpired` returns true iff
`now ≥ createdAt + expiresIn − 300 s`; with `expiresIn = 3600` a token
created 3595 s ago is expired, a token created 3594 s ago is also
expired, and the last non-expired instant is age 3299.999 s. -/
theorem c1_expiry_characterization :
    (∀ (t : OAuthTokens) (now : Int),
        isTokenExpired t now = true ↔
          now ≥ t.created_at + t.expires_in * 1000 - 300 * 1000)
    ∧ isTokenExpired hourToken 3595000 = true
    ∧ isTokenExpired hourToken 3594000 = true
    ∧ isTokenExpired hourToken 3299999 = false := by
  refine ⟨fun t now => ?_, by decide, by decide, by decide⟩
  simp [isTokenExpired]

/-- C10: an expired token is always reported as expiring soon — the
5-minute margin window is contained in the 7-day window. -/
theorem c10_expired_implies_expiring_soon (t : OAuthTokens) (now : Int)
    (h : isTokenExpired t now = true) : isTokenExpiringSoon t now = true := by
  simp [isTokenExpired] at h
  simp [isTokenExpiringSoon]
  omega

/-- C10 witness: the implication instantiated at a concrete expired
token. -/
theorem c10_witness :
    isTokenExpired hourToken 7200000 = true ∧
      isTokenExpiringSoon hourToken 7200000 = true :=
  ⟨by decide, c10_expired_implies_expiring_soon hourToken 7200000 (by decide)⟩

/-! ## Credential store (C5)

`saveTokens` / `loadTokens` / `getCredentialsDir` from src/lib/oauth.ts.
The filesystem is embedded as the state of the two storage roots the code
touches: whether `~/.clawdbot/credentials` and `~/.moltbot/credentials`
exist as directories, and the contents of the `linkedin.json` file under
each.  JSON serialization of the flat credential record is faithful
(strings, integers, optional fields), so a stored file is modelled as the
record itself. -/

/-- Filesystem state seen by the credential store: the primary
(`~/.clawdbot/credentials`) and legacy (`~/.moltbot/credentials`) roots
and the `linkedin.json` file under each. -/
structure CredFs where
  clawdbotDirExists : Bool
  moltbotDirExists : Bool
  clawdbotFile : Option OAuthTokens
  moltbotFile : Option OAuthTokens
deriving DecidableEq, Repr

/-- A filesystem state is well formed when a `linkedin.json` file only
exists inside an existing credentials directory. -/
def CredFs.wf (fs : CredFs) : Prop :=
  (fs.clawdbotFile.isSome → fs.clawdbotDirExists = true) ∧
    (fs.moltbotFile.isSome → fs.moltbotDirExists = true)

/-- Function `getCredentialsDir`: the clawdbot root if it exists, else the moltbot
root if it exists, else (by default) the clawdbot root.  `true` encodes
the clawdbot root, `false` the moltbot root. -/
def getCredentialsDirIsClawdbot (fs : CredFs) : Bool :=
  if fs.clawdbotDirExists then true
  else if fs.moltbotDirExists then false
  else true

/-- Function `saveTokens`: resolves the credentials directory with
`getCredentialsDir`, creates it if missing, and writes the record to
`linkedin.json` under it, overwriting any prior file. -/
def saveTokens (fs : CredFs) (tokens : OAuthTokens) : CredFs :=
  if getCredentialsDirIsClawdbot fs then
    { fs with clawdbotDirExists := true, clawdbotFile := some tokens }
  else
    { fs with moltbotDirExists := true, moltbotFile := some tokens }

/-- Function `loadTokens`: reads the clawdbot `linkedin.json` if that file exists,
else the moltbot one, else returns null. -/
def loadTokens (fs : CredFs) : Option OAuthTokens :=
  match fs.clawdbotFile with
  | some t => some t
  | none =>
      match fs.moltbotFile with
      | some t => some t
      | none => none

/-- C5: saving a credential record and immediately loading returns the
same record in all fields, whatever combination of the primary and legacy
storage roots existed beforehand (well-formedness: a credentials file can
only exist inside an existing credentials directory). -/
theorem c5_save_load_round_trip (fs : CredFs) (tokens : OAuthTokens)
    (hwf : fs.wf) : loadTokens (saveTokens fs tokens) = some tokens := by
  obtain ⟨h1, _⟩ := hwf
  by_cases hc : fs.clawdbotDirExists
  · simp [saveTokens, getCredentialsDirIsClawdbot, hc, loadTokens]
  · have hnone : fs.clawdbotFile = none := by
      cases hfile : fs.clawdbotFile with
      | none => rfl
      | some t => exact absurd (h1 (by simp [hfile])) hc
    by_cases hm : fs.moltbotDirExists
    · simp [saveTokens, getCredentialsDirIsClawdbot, hc, hm, loadTokens, hnone]
    · simp [saveTokens, getCredentialsDirIsClawdbot, hc, hm, loadTokens]

/-- C5 witness: the round trip evaluated on a filesystem where only the
legacy root exists. -/
theorem c5_witness :
    loadTokens (saveTokens ⟨false, true, none, none⟩ hourToken) =
      some hourToken :=
  c5_save_load_round_trip ⟨false, true, none, none⟩ hourToken
    (by constructor <;> simp)

/-! ## Callback listener (C2, C4)

`startCallbackServer` from src/lib/oauth.ts.  A callback request is the
tuple of query parameters the handler extracts; the handler itself is a
pure function from the expected CSRF state and a request to the promise
settlement it performs (if any) together with the HTTP status it serves.
JavaScript truthiness of string query parameters (`null` and the empty
string are falsy) is modelled explicitly. -/

/-- JavaScript truthiness of a nullable string: `null` and `""` are
falsy. -/
def jsTruthy : Option String → Bool
  | none => false
  | some s => decide (s ≠ "")

/-- JavaScript `a || b` for a nullable string `a` and a string `b`. -/
def jsOr (a : Option String) (b : String) : String :=
  match a with
  | some s => if s = "" then b else s
  | none => b

/-- A request received by the callback server: the pathname and the
`code`, `state`, `error` and `error_description` query parameters. -/
structure CbRequest where
  pathname : String
  code : Option String
  state : Option String
  error : Option String
  errorDescription : Option String
deriving DecidableEq, Repr

/-- Settlement of the pending login promise. -/
inductive CallbackOutcome where
  | resolved (code : String)
  | rejected (reason : String)
deriving DecidableEq, Repr

/-- The request handler of `startCallbackServer`: returns the promise
settlement it performs (`none` on the 404 path, which leaves the listener
open) and the HTTP status it serves.  Branch order follows the source:
`error` first, then the CSRF `state` comparison, then the missing-`code`
check, then success. -/
def handleCallback (expectedState : String) (req : CbRequest) :
    Option CallbackOutcome × Nat :=
  if req.pathname = "/callback" then
    if jsTruthy req.error then
      (some (.rejected (jsOr req.errorDescription (req.error.getD ""))), 400)
    else if req.state ≠ some expectedState then
      (some (.rejected "Invalid state parameter"), 400)
    else if ¬ jsTruthy req.code then
      (some (.rejected "No authorization code received"), 400)
    else
      (some (.resolved (req.code.getD "")), 200)
  else
    (none, 404)

/-- C2: a callback request whose `state` differs from the expected CSRF
state is never resolved — the handler settles the promise with a
rejection and serves HTTP 400, even when a valid `code` is present; when
no `error` parameter is carried, the rejection reason is the
invalid-state error. -/
theorem c2_state_mismatch_rejects (expectedState : String) (req : CbRequest)
    (hpath : req.pathname = "/callback")
    (hstate : req.state ≠ some expectedState) :
    (∀ c, (handleCallback expectedState req).1 ≠ some (.resolved c)) ∧
      (∃ reason, (handleCallback expectedState req).1 =
        some (.rejected reason)) ∧
      (handleCallback expectedState req).2 = 400 ∧
      (jsTruthy req.error = false →
        (handleCallback expectedState req).1 =
          some (.rejected "Invalid state parameter")) := by
  by_cases herr : jsTruthy req.error
  · refine ⟨fun c => ?_, ⟨jsOr req.errorDescription (req.error.getD ""), ?_⟩,
      ?_, fun hfalse => ?_⟩ <;> simp_all [handleCallback]
  · refine ⟨fun c => ?_, ⟨"Invalid state parameter", ?_⟩, ?_, fun _ => ?_⟩ <;>
      simp_all [handleCallback]

/-- C2 witness: a mismatched-state request carrying a valid code is
rejected with the invalid-state reason and a 400 page. -/
theorem c2_witness :
    (∀ c, (handleCallback "expected"
        ⟨"/callback", some "goodcode", some "attacker", none, none⟩).1 ≠
          some (.resolved c)) ∧
      (∃ reason, (handleCallback "expected"
        ⟨"/callback", some "goodcode", some "attacker", none, none⟩).1 =
          some (.rejected reason)) ∧
      (handleCallback "expected"
        ⟨"/callback", some "goodcode", some "attacker", none, none⟩).2 = 400 ∧
      (jsTruthy (none : Option String) = false →
        (handleCallback "expected"
          ⟨"/callback", some "goodcode", some "attacker", none, none⟩).1 =
            some (.rejected "Invalid state parameter")) :=
  c2_state_mismatch_rejects "expected"
    ⟨"/callback", some "goodcode", some "attacker", none, none⟩
    (by decide) (by decide)

/-- Run state of one `startCallbackServer` invocation: whether the
listener is still accepting requests, the settlement of the returned
promise (a promise settles at most once; later settlements are no-ops),
and how many times `server.close()` has been invoked. -/
structure ServerState where
  isOpen : Bool
  settled : Option CallbackOutcome
  closeCalls : Nat
deriving DecidableEq, Repr

/-- Deliver one incoming HTTP request to the server.  A request can only
be accepted while the listener is open; the 404 path leaves the listener
open and settles nothing; every settling branch of the handler calls
`server.close()` and then settles the promise (first settlement wins). -/
def serverStep (expectedState : String) (s : ServerState)
    (req : CbRequest) : ServerState :=
  if s.isOpen then
    match handleCallback expectedState req with
    | (none, _) => s
    | (some out, _) =>
        { isOpen := false
          settled := match s.settled with
            | some o => some o
            | none => some out
          closeCalls := s.closeCalls + 1 }
  else s

/-- The 5-minute timer callback of `startCallbackServer`: it calls
`server.close()` and rejects the promise.  The source never stores the
`setTimeout` handle and contains no `clearTimeout`, so this callback runs
unconditionally once the timer is due, whatever happened before. -/
def timerFire (s : ServerState) : ServerState :=
  { isOpen := false
    settled := match s.settled with
      | some o => some o
      | none => some (.rejected "Authorization timeout")
    closeCalls := s.closeCalls + 1 }

/-- One complete run of `startCallbackServer`: `reqs` are the requests
arriving (in order) during the 5-minute window; afterwards the
never-cancelled timer fires. -/
def runCallbackServer (expectedState : String) (reqs : List CbRequest) :
    ServerState :=
  timerFire (reqs.foldl (serverStep expectedState) ⟨true, none, 0⟩)

/-- C4: evaluation of the callback server at the two decisive schedules.
With no request in the window, the outcome is the timeout rejection with
the socket closed once, as the claim says.  But when a valid callback
arrives before the timer, the promise resolves and yet `server.close()`
is invoked twice — the completion path never cancels the 5-minute timer
(the source keeps no handle to it and has no `clearTimeout`), so the
timer still fires, closing the already-closed listener a second time,
contradicting the claimed mutual cancellation and exactly-once release. -/
theorem c4_timer_never_cancelled :
    runCallbackServer "s0" [] =
      { isOpen := false
        settled := some (.rejected "Authorization timeout")
        closeCalls := 1 } ∧
    runCallbackServer "s0" [⟨"/callback", some "c0", some "s0", none, none⟩] =
      { isOpen := false
        settled := some (.resolved "c0")
        closeCalls := 2 } := by
  constructor <;> rfl

/-! ## Post payloads and publish pipelines (C3, C6, C7)

`createPost`, `createOrganizationPost`, `createImagePost`,
`createOrganizationImagePost` and `registerImageUpload` from
src/lib/client.ts.  The JSON payload sent to `POST /ugcPosts` is embedded
as a structure; a `media` entry whose `title`/`description` property is
`undefined` is dropped by `JSON.stringify`, so presence of those fields in
the serialized payload is `Option.isSome` of the embedded field.  The
sequenced upstream calls of the image pipelines are embedded as an
explicit trace of issued requests, with the upstream's responses supplied
by a `World` oracle. -/

/-- Structure `CreatePostOptions` from src/lib/types.ts (the `imageUrl` extension of
the image pipelines is passed separately). -/
structure CreatePostOptions where
  text : String
  visibility : Option String
  articleUrl : Option String
  articleTitle : Option String
  articleDescription : Option String
deriving DecidableEq, Repr

/-- The single `media` array entry of a share payload: either the article
link-preview entry of `createPost` or the uploaded-asset entry of the
image pipelines (both carry `status: "READY"`, a constant). -/
inductive MediaEntry where
  | article (originalUrl : String) (title : Option String)
      (description : Option String)
  | image (asset : String)
deriving DecidableEq, Repr

/-- The `POST /ugcPosts` payload (`lifecycleState` is always
`"PUBLISHED"`, a constant). -/
structure UgcPayload where
  author : String
  visibility : String
  text : String
  shareMediaCategory : String
  media : Option MediaEntry
deriving DecidableEq, Repr

/-- Payload built by `createPost`: base payload with category `"NONE"`
and no media; when `options.articleUrl` is truthy the category switches
to `"ARTICLE"` and a media entry is added whose `title` and `description`
properties are present only when the corresponding option is truthy. -/
def buildCreatePostPayload (authorUrn : String)
    (options : CreatePostOptions) : UgcPayload :=
  let base : UgcPayload :=
    { author := authorUrn
      visibility := options.visibility.getD "PUBLIC"
      text := options.text
      shareMediaCategory := "NONE"
      media := none }
  if jsTruthy options.articleUrl then
    { base with
        shareMediaCategory := "ARTICLE"
        media := some (.article (options.articleUrl.getD "")
          (if jsTruthy options.articleTitle then options.articleTitle
           else none)
          (if jsTruthy options.articleDescription then
            options.articleDescription
           else none)) }
  else base

/-- Payload built by `createOrganizationPost`: author is the organization
URN rendered from the caller-supplied id. -/
def buildOrgPostPayload (organizationId : String)
    (options : CreatePostOptions) : UgcPayload :=
  { author := "urn:li:organization:" ++ organizationId
    visibility := options.visibility.getD "PUBLIC"
    text := options.text
    shareMediaCategory := "NONE"
    media := none }

/-- Payload of phase 3 of the image pipelines: category `"IMAGE"` with
the registered asset embedded. -/
def buildImagePostPayload (authorUrn : String)
    (options : CreatePostOptions) (asset : String) : UgcPayload :=
  { author := authorUrn
    visibility := options.visibility.getD "PUBLIC"
    text := options.text
    shareMediaCategory := "IMAGE"
    media := some (.image asset) }

/-- Whether the serialized payload contains a media `title` field. -/
def hasMediaTitle (p : UgcPayload) : Bool :=
  match p.media with
  | some (.article _ (some _) _) => true
  | _ => false

/-- Whether the serialized payload contains a media `description`
field. -/
def hasMediaDescription (p : UgcPayload) : Bool :=
  match p.media with
  | some (.article _ _ (some _)) => true
  | _ => false

/-- C6 counterexample: two concrete option records refute the claim as
stated.  With `articleUrl` unset but `articleTitle` supplied, the payload
contains no media title field at all; and with `articleUrl` supplied as
the empty string (a set but falsy value), the category stays `"NONE"`
rather than switching to `"ARTICLE"`. -/
theorem c6_counterexample :
    ((CreatePostOptions.mk "hi" none none (some "My Title")
        none).articleTitle.isSome = true ∧
      hasMediaTitle (buildCreatePostPayload "urn:li:person:42"
        (CreatePostOptions.mk "hi" none none (some "My Title") none)) =
          false) ∧
    ((CreatePostOptions.mk "hi" none (some "") none
        none).articleUrl.isSome = true ∧
      (buildCreatePostPayload "urn:li:person:42"
        (CreatePostOptions.mk "hi" none (some "") none
          none)).shareMediaCategory = "NONE") := by
  refine ⟨⟨rfl, rfl⟩, ⟨rfl, rfl⟩⟩

/-- C6 (amended): the payload's media category is `"NONE"` when
`articleUrl` is unset or empty and `"ARTICLE"` when it is set non-empty;
when `articleUrl` is set non-empty, the serialized payload contains a
media title field exactly when `articleTitle` is supplied non-empty and a
media description field exactly when `articleDescription` is supplied
non-empty; when `articleUrl` is unset or empty there is no media entry,
hence neither field. -/
theorem c6_article_payload (authorUrn : String)
    (options : CreatePostOptions) :
    ((buildCreatePostPayload authorUrn options).shareMediaCategory =
        if jsTruthy options.articleUrl then "ARTICLE" else "NONE") ∧
      (jsTruthy options.articleUrl = true →
        (hasMediaTitle (buildCreatePostPayload authorUrn options) =
            jsTruthy options.articleTitle) ∧
          (hasMediaDescription (buildCreatePostPayload authorUrn options) =
            jsTruthy options.articleDescription)) ∧
      (jsTruthy options.articleUrl = false →
        (buildCreatePostPayload authorUrn options).media = none) := by
  by_cases hu : jsTruthy options.articleUrl
  · refine ⟨by simp [buildCreatePostPayload, hu], fun _ => ⟨?_, ?_⟩,
      fun hfalse => by simp_all⟩
    · by_cases ht : jsTruthy options.articleTitle
      · have : options.articleTitle.isSome = true := by
          cases h : options.articleTitle <;> simp_all [jsTruthy]
        simp_all [buildCreatePostPayload, hasMediaTitle]
        cases h : options.articleTitle <;> simp_all
      · simp_all [buildCreatePostPayload, hasMediaTitle]
    · by_cases hd : jsTruthy options.articleDescription
      · simp_all [buildCreatePostPayload, hasMediaDescription]
        cases h : options.articleDescription <;> simp_all [jsTruthy]
      · simp_all [buildCreatePostPayload, hasMediaDescription]
  · simp_all [buildCreatePostPayload]

/-- C6 witness: the amended characterization evaluated at options with a
non-empty article URL, a supplied title and no description. -/
theorem c6_witness :
    ((buildCreatePostPayload "urn:li:person:42"
        (CreatePostOptions.mk "hi" none (some "https://a.example/x")
          (some "My Title") none)).shareMediaCategory =
      if jsTruthy (some "https://a.example/x") then "ARTICLE"
      else "NONE") ∧
      (jsTruthy (some "https://a.example/x") = true →
        (hasMediaTitle (buildCreatePostPayload "urn:li:person:42"
            (CreatePostOptions.mk "hi" none (some "https://a.example/x")
              (some "My Title") none)) = jsTruthy (some "My Title")) ∧
          (hasMediaDescription (buildCreatePostPayload "urn:li:person:42"
            (CreatePostOptions.mk "hi" none (some "https://a.example/x")
              (some "My Title") none)) =
              jsTruthy (none : Option String))) ∧
      (jsTruthy (some "https://a.example/x") = false →
        (buildCreatePostPayload "urn:li:person:42"
          (CreatePostOptions.mk "hi" none (some "https://a.example/x")
            (some "My Title") none)).media = none) :=
  c6_article_payload "urn:li:person:42"
    (CreatePostOptions.mk "hi" none (some "https://a.example/x")
      (some "My Title") none)

/-- One upstream call issued by the client during a publish pipeline:
the identity lookup (`GET userinfo` via `getMemberUrn`), the upload
registration (`POST /assets?action=registerUpload`), the byte-source
resolution of `getImageBuffer` (local file read or remote fetch), the
byte transfer (`PUT` to the one-time upload URL), or the publish request
(`POST /ugcPosts`). -/
inductive ApiCall where
  | userinfo
  | registerUpload (owner : String)
  | resolveImage (source : String)
  | putUpload (uploadUrl : String)
  | publishPost (payload : UgcPayload)
deriving DecidableEq, Repr

/-- Upstream oracle for one pipeline run: the response each phase would
receive if issued.  `none` / `false` encode the failure of that phase
(non-2xx response, unresolvable byte source). -/
structure World where
  profileSub : Option String
  registerResult : Option (String × String)
  imageOk : Bool
  uploadOk : Bool
  publishId : Option String
deriving DecidableEq, Repr

/-- Method `createImagePost`: identity lookup, then register (phase 1), then
byte-source resolution and `PUT` (phase 2), then publish (phase 3); each
failure aborts before the next call, mirroring the `await`/`throw`
sequencing of the source.  Returns the trace of issued calls and the
created post id, if any. -/
def createImagePost (w : World) (options : CreatePostOptions)
    (imageUrl : String) : List ApiCall × Option String :=
  match w.profileSub with
  | none => ([.userinfo], none)
  | some sub =>
      let authorUrn := "urn:li:person:" ++ sub
      match w.registerResult with
      | none => ([.userinfo, .registerUpload authorUrn], none)
      | some (uploadUrl, asset) =>
          if w.imageOk then
            if w.uploadOk then
              ([.userinfo, .registerUpload authorUrn,
                .resolveImage imageUrl, .putUpload uploadUrl,
                .publishPost (buildImagePostPayload authorUrn options
                  asset)],
               w.publishId)
            else
              ([.userinfo, .registerUpload authorUrn,
                .resolveImage imageUrl, .putUpload uploadUrl], none)
          else
            ([.userinfo, .registerUpload authorUrn,
              .resolveImage imageUrl], none)

/-- Method `createOrganizationImagePost`: identical pipeline except the owning
URN is the organization URN and no identity lookup is made. -/
def createOrganizationImagePost (w : World) (organizationId : String)
    (options : CreatePostOptions) (imageUrl : String) :
    List ApiCall × Option String :=
  let orgUrn := "urn:li:organization:" ++ organizationId
  match w.registerResult with
  | none => ([.registerUpload orgUrn], none)
  | some (uploadUrl, asset) =>
      if w.imageOk then
        if w.uploadOk then
          ([.registerUpload orgUrn, .resolveImage imageUrl,
            .putUpload uploadUrl,
            .publishPost (buildImagePostPayload orgUrn options asset)],
           w.publishId)
        else
          ([.registerUpload orgUrn, .resolveImage imageUrl,
            .putUpload uploadUrl], none)
      else
        ([.registerUpload orgUrn, .resolveImage imageUrl], none)

/-- Method `createOrganizationPost`: a single publish request, no identity
lookup. -/
def createOrganizationPost (w : World) (organizationId : String)
    (options : CreatePostOptions) : List ApiCall × Option String :=
  ([.publishPost (buildOrgPostPayload organizationId options)],
   w.publishId)

/-- Whether a call is a publish-phase request (`POST /ugcPosts`). -/
def ApiCall.isPublish : ApiCall → Bool
  | .publishPost _ => true
  | _ => false

/-- C3: in both image pipelines, if the byte-transfer phase fails (the
image source cannot be resolved or the `PUT` to the one-time upload URL
is not successful) then no publish-phase request appears in the trace;
and whenever a publish request does appear, the trace is exactly the
strictly ordered sequence registration, then byte transfer, then
publish. -/
theorem c3_transfer_failure_stops_publish (w : World)
    (organizationId : String) (options : CreatePostOptions)
    (imageUrl : String) :
    ((w.imageOk = false ∨ w.uploadOk = false) →
      (∀ call ∈ (createImagePost w options imageUrl).1,
          call.isPublish = false) ∧
        (∀ call ∈ (createOrganizationImagePost w organizationId options
            imageUrl).1, call.isPublish = false)) ∧
      ((∃ p, ApiCall.publishPost p ∈ (createImagePost w options
          imageUrl).1) →
        ∃ sub uploadUrl asset,
          w.profileSub = some sub ∧
          w.registerResult = some (uploadUrl, asset) ∧
          (createImagePost w options imageUrl).1 =
            [.userinfo, .registerUpload ("urn:li:person:" ++ sub),
             .resolveImage imageUrl, .putUpload uploadUrl,
             .publishPost (buildImagePostPayload
               ("urn:li:person:" ++ sub) options asset)]) ∧
      ((∃ p, ApiCall.publishPost p ∈ (createOrganizationImagePost w
          organizationId options imageUrl).1) →
        ∃ uploadUrl asset,
          w.registerResult = some (uploadUrl, asset) ∧
          (createOrganizationImagePost w organizationId options
              imageUrl).1 =
            [.registerUpload ("urn:li:organization:" ++ organizationId),
             .resolveImage imageUrl, .putUpload uploadUrl,
             .publishPost (buildImagePostPayload
               ("urn:li:organization:" ++ organizationId) options
               asset)]) := by
  obtain ⟨sub, reg, img, upl, pid⟩ := w
  refine ⟨fun hfail => ⟨?_, ?_⟩, fun hpub => ?_, fun hpub => ?_⟩ <;>
    cases sub <;> rcases reg with _ | ⟨u, a⟩ <;> cases img <;> cases upl <;>
    simp_all [createImagePost, createOrganizationImagePost,
      ApiCall.isPublish] <;>
    exact ⟨u, a, ⟨rfl, rfl⟩, rfl, rfl⟩

/-- C3 witness: with a world whose byte transfer fails (non-success
`PUT`), neither pipeline's trace contains a publish request. -/
theorem c3_witness :
    ((World.mk (some "42") (some ("https://up.example/u", "urn:li:a"))
          true false (some "id")).imageOk = false ∨
        (World.mk (some "42") (some ("https://up.example/u", "urn:li:a"))
          true false (some "id")).uploadOk = false) ∧
      (∀ call ∈ (createImagePost
          (World.mk (some "42")
            (some ("https://up.example/u", "urn:li:a")) true false
            (some "id"))
          (CreatePostOptions.mk "hi" none none none none)
          "./pic.png").1, call.isPublish = false) ∧
      (∀ call ∈ (createOrganizationImagePost
          (World.mk (some "42")
            (some ("https://up.example/u", "urn:li:a")) true false
            (some "id"))
          "777" (CreatePostOptions.mk "hi" none none none none)
          "./pic.png").1, call.isPublish = false) :=
  ⟨Or.inr rfl,
    (c3_transfer_failure_stops_publish
      (World.mk (some "42") (some ("https://up.example/u", "urn:li:a"))
        true false (some "id"))
      "777" (CreatePostOptions.mk "hi" none none none none)
      "./pic.png").1 (Or.inr rfl)⟩

/-- C7: `createOrganizationPost` issues exactly one upstream request —
the publish request — whose author is the organization URN rendered from
the caller-supplied id, and no identity-lookup call occurs; in
particular, for id "777" the author is "urn:li:organization:777". -/
theorem c7_org_post_author (w : World) (organizationId : String)
    (options : CreatePostOptions) :
    (createOrganizationPost w organizationId options).1 =
        [.publishPost (buildOrgPostPayload organizationId options)] ∧
      (buildOrgPostPayload organizationId options).author =
        "urn:li:organization:" ++ organizationId ∧
      ApiCall.userinfo ∉ (createOrganizationPost w organizationId
        options).1 ∧
      (buildOrgPostPayload "777"
        (CreatePostOptions.mk "hi" none none none none)).author =
        "urn:li:organization:777" := by
  refine ⟨rfl, rfl, ?_, rfl⟩
  simp [createOrganizationPost]

/-! ## Authenticated request handling (C8)

`LinkedInClient.request` from src/lib/client.ts.  The upstream response
is a status code plus a raw body text.  `JSON.parse` is modelled by
`miniParse`, a recognizer for the flat JSON fragment the client actually
exchanges (objects with string keys, string and integer values, no
escape sequences); inputs outside this fragment are rejected. -/

/-- JSON value of the fragment exchanged by the client. -/
inductive MiniJson where
  | str (s : String)
  | num (n : Int)
  | obj (fields : List (String × MiniJson))

/-- Skip JSON whitespace. -/
def skipWs : List Char → List Char
  | ' ' :: rest => skipWs rest
  | '\n' :: rest => skipWs rest
  | '\t' :: rest => skipWs rest
  | '\r' :: rest => skipWs rest
  | cs => cs

/-- Consume the body of a string literal up to the closing quote; escape
sequences are outside the modelled fragment and are rejected. -/
def strChars : List Char → Option (List Char × List Char)
  | [] => none
  | '"' :: rest => some ([], rest)
  | '\\' :: _ => none
  | c :: rest =>
      match strChars rest with
      | some (s, r) => some (c :: s, r)
      | none => none

/-- Consume a run of decimal digits. -/
def digitRun : List Char → List Char × List Char
  | [] => ([], [])
  | c :: rest =>
      if c.isDigit then
        let (ds, r) := digitRun rest
        (c :: ds, r)
      else ([], c :: rest)

/-- Numeric value of a run of decimal digits. -/
def natOfDigits (ds : List Char) : Nat :=
  ds.foldl (fun a c => a * 10 + (c.toNat - 48)) 0

mutual

/-- Parse one JSON value of the fragment; `fuel` bounds recursion
depth. -/
def parseVal : Nat → List Char → Option (MiniJson × List Char)
  | 0, _ => none
  | fuel + 1, cs =>
      match skipWs cs with
      | [] => none
      | c :: rest =>
          if c = '"' then
            match strChars rest with
            | some (s, r) => some (MiniJson.str (String.mk s), r)
            | none => none
          else if c = Char.ofNat 123 then
            parseObjFields fuel rest true []
          else if c = '-' then
            match digitRun rest with
            | ([], _) => none
            | (ds, r) => some (MiniJson.num (-(natOfDigits ds : Int)), r)
          else if c.isDigit then
            match digitRun (c :: rest) with
            | (ds, r) => some (MiniJson.num ((natOfDigits ds : Int)), r)
          else none

/-- Parse the remaining fields of an object after the opening brace
(`isFirst` true) or after a parsed field (`isFirst` false). -/
def parseObjFields : Nat → List Char → Bool →
    List (String × MiniJson) → Option (MiniJson × List Char)
  | 0, _, _, _ => none
  | fuel + 1, cs, isFirst, acc =>
      match skipWs cs with
      | [] => none
      | c :: rest =>
          if c = Char.ofNat 125 then some (MiniJson.obj acc.reverse, rest)
          else if isFirst then parseOneField fuel (c :: rest) acc
          else if c = ',' then parseOneField fuel rest acc
          else none

/-- Parse one `"key": value` object field and continue with the rest of
the object. -/
def parseOneField : Nat → List Char → List (String × MiniJson) →
    Option (MiniJson × List Char)
  | 0, _, _ => none
  | fuel + 1, cs, acc =>
      match skipWs cs with
      | '"' :: rest =>
          match strChars rest with
          | none => none
          | some (key, r1) =>
              match skipWs r1 with
              | ':' :: r2 =>
                  match parseVal fuel r2 with
                  | none => none
                  | some (v, r3) =>
                      parseObjFields fuel r3 false
                        ((String.mk key, v) :: acc)
              | _ => none
      | _ => none

end

/-- Model of `JSON.parse` on the embedded fragment: parse one value and require
only whitespace to remain. -/
def miniParse (s : String) : Option MiniJson :=
  match parseVal (s.length + 1) s.data with
  | some (v, rest) => if skipWs rest = [] then some v else none
  | none => none

/-- Field lookup on a parsed JSON value (property access on the parsed
object; non-objects have no fields). -/
def lookupField (j : MiniJson) (k : String) : Option MiniJson :=
  match j with
  | .obj fields => fields.lookup k
  | _ => none

/-- The message of a thrown upstream error: `error.message || errorText`
where `error` is `JSON.parse(errorText)` when that parses and otherwise
the fallback record whose message is the raw text; a missing, empty or
falsy `message` property falls back to the raw text, and a truthy
non-string one is rendered by template interpolation. -/
def errMessage (body : String) : String :=
  match miniParse body with
  | some j =>
      match lookupField j "message" with
      | some (MiniJson.str m) => if m = "" then body else m
      | some (MiniJson.num n) => if n = 0 then body else toString n
      | some (MiniJson.obj _) => "[object Object]"
      | none => body
  | none => body

/-- An upstream HTTP response as seen by `request`: status code and raw
body text. -/
structure HttpResponse where
  status : Nat
  body : String
deriving DecidableEq, Repr

/-- Result of one `request` call: a parsed successful body (the empty
body yields the empty result), a thrown upstream API error carrying the
response status and derived message, or a thrown `JSON.parse` error on an
unparseable successful body. -/
inductive ReqOutcome where
  | success (v : MiniJson)
  | apiError (status : Nat) (message : String)
  | parseError

/-- Predicate `response.ok`: status in the 2xx range. -/
def is2xx (status : Nat) : Bool := decide (200 ≤ status) && decide (status < 300)

/-- Method `LinkedInClient.request`: a non-2xx response throws an API error with
the response status and the derived message; a 2xx response with an empty
body returns the empty result; otherwise the body is `JSON.parse`d,
throwing on failure. -/
def clientRequest (resp : HttpResponse) : ReqOutcome :=
  if is2xx resp.status then
    if resp.body = "" then .success (.obj [])
    else
      match miniParse resp.body with
      | some v => .success v
      | none => .parseError
  else .apiError resp.status (errMessage resp.body)

/-- Whether a `request` call failed (threw). -/
def isFailure : ReqOutcome → Bool
  | .success _ => false
  | .apiError _ _ => true
  | .parseError => true

/-- C8 counterexample: a 2xx response whose non-empty body is not valid
JSON makes the call fail with a parse error, refuting the claim that the
call fails only when the status is non-2xx. -/
theorem c8_counterexample :
    is2xx 200 = true ∧
      clientRequest ⟨200, "garbage"⟩ = ReqOutcome.parseError ∧
      isFailure (clientRequest ⟨200, "garbage"⟩) = true := by
  refine ⟨rfl, rfl, rfl⟩

/-- C8 (amended): a `request` call fails iff the status is non-2xx or
the body is non-empty and not valid JSON; every non-2xx response throws
an error carrying the response status and the derived message — the
structured body's `message` when the body parses to an object with a
non-empty string `message`, the raw body text when the body does not
parse; and a 2xx response with an empty body yields the empty result,
never a parse error. -/
theorem c8_request_characterization (resp : HttpResponse) :
    (isFailure (clientRequest resp) = true ↔
        (is2xx resp.status = false ∨
          (resp.body ≠ "" ∧ miniParse resp.body = none))) ∧
      (is2xx resp.status = false →
        clientRequest resp =
          ReqOutcome.apiError resp.status (errMessage resp.body)) ∧
      (is2xx resp.status = true → resp.body = "" →
        clientRequest resp = ReqOutcome.success (MiniJson.obj [])) ∧
      (miniParse resp.body = none → errMessage resp.body = resp.body) ∧
      (∀ fields m, miniParse resp.body = some (MiniJson.obj fields) →
        fields.lookup "message" = some (MiniJson.str m) → m ≠ "" →
        errMessage resp.body = m) := by
  refine ⟨?_, fun h2 => ?_, fun h2 hb => ?_, fun hp => ?_,
    fun fields m hp hm hne => ?_⟩
  · by_cases h2 : is2xx resp.status
    · by_cases hb : resp.body = ""
      · simp [clientRequest, h2, hb, isFailure]
      · cases hp : miniParse resp.body <;>
          simp [clientRequest, h2, hb, isFailure, hp]
    · simp [clientRequest, h2, isFailure]
  · simp [clientRequest, h2]
  · simp [clientRequest, h2, hb]
  · simp [errMessage, hp]
  · simp [errMessage, hp, lookupField, hm, hne]

/-- C8 witness: the amended characterization evaluated on a 404 response
with an unstructured body and on a 500 response with a structured error
body. -/
theorem c8_witness :
    clientRequest ⟨404, "nope"⟩ = ReqOutcome.apiError 404 "nope" ∧
      clientRequest ⟨500, "\x7b\"message\":\"Internal failure\"\x7d"⟩ =
        ReqOutcome.apiError 500 "Internal failure" :=
  ⟨(c8_request_characterization ⟨404, "nope"⟩).2.1 (by decide),
    (c8_request_characterization
      ⟨500, "\x7b\"message\":\"Internal failure\"\x7d"⟩).2.1 (by decide)⟩

/-! ## CSRF state generation (C9)

`generateState` from src/lib/oauth.ts:
`crypto.randomBytes(32).toString('base64url')`.  The random source is
supplied as a parameter (the 32 bytes drawn); `base64url` is Node's
unpadded URL-safe base64 alphabet, embedded below together with a decoder
used to establish injectivity of the encoding. -/

/-- The base64url alphabet: index 0-25 map to `A`-`Z`, 26-51 to `a`-`z`,
52-61 to `0`-`9`, 62 to `-`, 63 to `_`. -/
def b64UrlChar (n : Nat) : Char :=
  if n < 26 then Char.ofNat (65 + n)
  else if n < 52 then Char.ofNat (97 + (n - 26))
  else if n < 62 then Char.ofNat (48 + (n - 52))
  else if n = 62 then '-'
  else '_'

/-- Inverse of the base64url alphabet. -/
def b64UrlVal (c : Char) : Nat :=
  if 65 ≤ c.toNat ∧ c.toNat ≤ 90 then c.toNat - 65
  else if 97 ≤ c.toNat ∧ c.toNat ≤ 122 then c.toNat - 97 + 26
  else if 48 ≤ c.toNat ∧ c.toNat ≤ 57 then c.toNat - 48 + 52
  else if c = '-' then 62
  else 63

/-- Unpadded base64url encoding of a byte sequence: full 3-byte groups
produce 4 characters; a trailing group of 1 or 2 bytes produces 2 or 3
characters with zero-padded low bits and no `=` padding. -/
def b64UrlEncode : List Nat → List Char
  | b0 :: b1 :: b2 :: rest =>
      b64UrlChar (b0 / 4) ::
        b64UrlChar (b0 % 4 * 16 + b1 / 16) ::
        b64UrlChar (b1 % 16 * 4 + b2 / 64) ::
        b64UrlChar (b2 % 64) :: b64UrlEncode rest
  | [b0, b1] =>
      [b64UrlChar (b0 / 4), b64UrlChar (b0 % 4 * 16 + b1 / 16),
        b64UrlChar (b1 % 16 * 4)]
  | [b0] => [b64UrlChar (b0 / 4), b64UrlChar (b0 % 4 * 16)]
  | [] => []

/-- Decoder of unpadded base64url, the left inverse used to prove the
encoding injective. -/
def b64UrlDecode : List Char → List Nat
  | c0 :: c1 :: c2 :: c3 :: rest =>
      (b64UrlVal c0 * 4 + b64UrlVal c1 / 16) ::
        (b64UrlVal c1 % 16 * 16 + b64UrlVal c2 / 4) ::
        (b64UrlVal c2 % 4 * 64 + b64UrlVal c3) :: b64UrlDecode rest
  | [c0, c1, c2] =>
      [b64UrlVal c0 * 4 + b64UrlVal c1 / 16,
        b64UrlVal c1 % 16 * 16 + b64UrlVal c2 / 4]
  | [c0, c1] => [b64UrlVal c0 * 4 + b64UrlVal c1 / 16]
  | _ => []

/-- A character of the URL-safe base64url alphabet. -/
def isUrlSafeChar (c : Char) : Bool :=
  (decide (65 ≤ c.toNat) && decide (c.toNat ≤ 90)) ||
    (decide (97 ≤ c.toNat) && decide (c.toNat ≤ 122)) ||
    (decide (48 ≤ c.toNat) && decide (c.toNat ≤ 57)) ||
    decide (c = '-') || decide (c = '_')

/-- The alphabet map is inverted by `b64UrlVal` on each sextet. -/
theorem b64_val_char_fin : ∀ x : Fin 64, b64UrlVal (b64UrlChar x.val) = x.val := by
  decide

/-- Unbundled form of `b64_val_char_fin`. -/
theorem b64_val_char_nat (x : Nat) (h : x < 64) :
    b64UrlVal (b64UrlChar x) = x := b64_val_char_fin ⟨x, h⟩

/-- Each alphabet character is URL safe. -/
theorem b64_char_url_safe_fin :
    ∀ x : Fin 64, isUrlSafeChar (b64UrlChar x.val) = true := by
  decide

/-- Unbundled form of `b64_char_url_safe_fin`. -/
theorem b64_char_url_safe_nat (x : Nat) (h : x < 64) :
    isUrlSafeChar (b64UrlChar x) = true := b64_char_url_safe_fin ⟨x, h⟩

/-- The decoder inverts the encoder on byte sequences. -/
theorem b64_decode_encode :
    ∀ bs : List Nat, (∀ b ∈ bs, b < 256) →
      b64UrlDecode (b64UrlEncode bs) = bs
  | [], _ => rfl
  | [b0], h => by
      have hb0 : b0 < 256 := h b0 (by simp)
      simp only [b64UrlEncode, b64UrlDecode]
      rw [b64_val_char_nat (b0 / 4) (by omega),
        b64_val_char_nat (b0 % 4 * 16) (by omega)]
      simp only [List.cons.injEq, and_true]
      omega
  | [b0, b1], h => by
      have hb0 : b0 < 256 := h b0 (by simp)
      have hb1 : b1 < 256 := h b1 (by simp)
      simp only [b64UrlEncode, b64UrlDecode]
      rw [b64_val_char_nat (b0 / 4) (by omega),
        b64_val_char_nat (b0 % 4 * 16 + b1 / 16) (by omega),
        b64_val_char_nat (b1 % 16 * 4) (by omega)]
      simp only [List.cons.injEq, and_true]
      omega
  | b0 :: b1 :: b2 :: rest, h => by
      have hb0 : b0 < 256 := h b0 (by simp)
      have hb1 : b1 < 256 := h b1 (by simp)
      have hb2 : b2 < 256 := h b2 (by simp)
      have ih := b64_decode_encode rest (fun b hb => h b (by simp [hb]))
      simp only [b64UrlEncode, b64UrlDecode]
      rw [b64_val_char_nat (b0 / 4) (by omega),
        b64_val_char_nat (b0 % 4 * 16 + b1 / 16) (by omega),
        b64_val_char_nat (b1 % 16 * 4 + b2 / 64) (by omega),
        b64_val_char_nat (b2 % 64) (by omega), ih]
      simp only [List.cons.injEq, and_true]
      omega

/-- Every character the encoder emits is URL safe. -/
theorem b64_encode_url_safe :
    ∀ bs : List Nat, (∀ b ∈ bs, b < 256) →
      ∀ c ∈ b64UrlEncode bs, isUrlSafeChar c = true
  | [], _ => by simp [b64UrlEncode]
  | [b0], h => by
      have hb0 : b0 < 256 := h b0 (by simp)
      simp only [b64UrlEncode, List.mem_cons, List.not_mem_nil, or_false]
      rintro c (rfl | rfl) <;> exact b64_char_url_safe_nat _ (by omega)
  | [b0, b1], h => by
      have hb0 : b0 < 256 := h b0 (by simp)
      have hb1 : b1 < 256 := h b1 (by simp)
      simp only [b64UrlEncode, List.mem_cons, List.not_mem_nil, or_false]
      rintro c (rfl | rfl | rfl) <;>
        exact b64_char_url_safe_nat _ (by omega)
  | b0 :: b1 :: b2 :: rest, h => by
      have hb0 : b0 < 256 := h b0 (by simp)
      have hb1 : b1 < 256 := h b1 (by simp)
      have hb2 : b2 < 256 := h b2 (by simp)
      have ih := b64_encode_url_safe rest (fun b hb => h b (by simp [hb]))
      simp only [b64UrlEncode, List.mem_cons]
      rintro c (rfl | rfl | rfl | rfl | hc)
      · exact b64_char_url_safe_nat _ (by omega)
      · exact b64_char_url_safe_nat _ (by omega)
      · exact b64_char_url_safe_nat _ (by omega)
      · exact b64_char_url_safe_nat _ (by omega)
      · exact ih c hc

/-- Function `generateState`: encode the 32 bytes drawn from the cryptographic
random source with base64url.  The drawn bytes are the function's
parameter. -/
def generateState (randomBytes : List Nat) : String :=
  String.mk (b64UrlEncode randomBytes)

/-- C9 counterexample: the claim's "two consecutive calls never produce
equal values" fails in the possible execution where the random source
returns the same 32 bytes twice — the two generated states are then
equal. -/
theorem c9_counterexample :
    (List.replicate 32 (0 : Nat)).length = 32 ∧
      (∀ b ∈ List.replicate 32 (0 : Nat), b < 256) ∧
      generateState (List.replicate 32 (0 : Nat)) =
        generateState (List.replicate 32 (0 : Nat)) :=
  ⟨rfl, by decide, rfl⟩

/-- C9 (amended): for any two 32-byte draws of the random source, the
generated states are equal iff the draws are equal — `generateState` is
injective on the 2^256 possible draws, so all 256 ≥ 128 bits of entropy
are preserved and two consecutive calls differ whenever their draws
differ — and every character of a generated state belongs to the
URL-safe base64url alphabet. -/
theorem c9_state_injective_and_url_safe (r1 r2 : List Nat)
    (h1len : r1.length = 32) (h2len : r2.length = 32)
    (h1 : ∀ b ∈ r1, b < 256) (h2 : ∀ b ∈ r2, b < 256) :
    (generateState r1 = generateState r2 ↔ r1 = r2) ∧
      ∀ c ∈ (generateState r1).data, isUrlSafeChar c = true := by
  constructor
  · constructor
    · intro heq
      have hchars : b64UrlEncode r1 = b64UrlEncode r2 :=
        congrArg String.data heq
      calc r1 = b64UrlDecode (b64UrlEncode r1) :=
            (b64_decode_encode r1 h1).symm
        _ = b64UrlDecode (b64UrlEncode r2) := by rw [hchars]
        _ = r2 := b64_decode_encode r2 h2
    · intro heq
      rw [heq]
  · intro c hc
    exact b64_encode_url_safe r1 h1 c hc

/-- C9 witness: two concrete distinct 32-byte draws yield distinct
states, and the state of the all-zero draw is URL safe. -/
theorem c9_witness :
    generateState (List.replicate 32 (0 : Nat)) ≠
        generateState (1 :: List.replicate 31 (0 : Nat)) ∧
      ∀ c ∈ (generateState (List.replicate 32 (0 : Nat))).data,
        isUrlSafeChar c = true := by
  have h := c9_state_injective_and_url_safe
    (List.replicate 32 (0 : Nat)) (1 :: List.replicate 31 (0 : Nat))
    (by decide) (by decide) (by decide) (by decide)
  exact ⟨fun heq => by exact absurd (h.1.mp heq) (by decide), h.2⟩

end LinkedInCli
